import Mathlib

/-!
Verification of the navigation-graph lane resolver and lane-safety evaluator
of the Euro-Truck-Simulator-2-Lane-Assist repository.

Shallow embedding conventions:

* Coordinates are exact rationals (the Python code uses floats); the ground
  plane is `(x, z)` for the truck and traffic, `(x, y)` for navigation nodes,
  exactly as the source reads the attributes.
* The source computes Euclidean distances with `math.sqrt` and only ever
  compares them against non-negative constants, takes minima of them, or
  divides them by positive constants inside a clamp.  The embedding works
  with SQUARED distances throughout: for `a, b ≥ 0`, `sqrt a < b ↔ a < b²`
  and `min` commutes with squaring, so every comparison below is the exact
  squared form of the source's comparison.  Where the squared value itself is
  returned (the speed factor of `check_lane_safety`), a bridging conjunct in
  the corresponding theorem relates it back to the un-squared value through
  `Real.sqrt`.
* `math_helpers.IsInFront` and `math_helpers.DistanceBetweenPoints` are code
  of this repository that is not under `src/`; they are modelled from the
  spec (see their doc comments).  The truck heading, a rotation in radians in
  the source, is represented by its forward direction vector so that the
  dot-product front/behind test stays computable.
* Python exceptions that a function catches itself (the `try`/`except` in
  `get_connecting_lanes_by_item`, the `ValueError` of `list.index`, the
  `IndexError` branch of `get_surrounding_nav_nodes`) are embedded as the
  `Option`/early-return value the handler produces.
-/

/-- Binary minimum on ℚ, written out with `if` so that concrete instances
reduce inside `decide`; agrees with Mathlib's `min` (`minQ_eq_min`) and with
Python's `min`. -/
def minQ (a b : ℚ) : ℚ := if a ≤ b then a else b

/-- Binary maximum on ℚ, written out with `if` so that concrete instances
reduce inside `decide`; agrees with Mathlib's `max` (`maxQ_eq_max`) and with
Python's `max`. -/
def maxQ (a b : ℚ) : ℚ := if b ≤ a then a else b

/-- Ground-plane squared distance between two points.  Squared form of the
Euclidean distance used throughout `lane_safety.py` (`math.sqrt((x1-x2)**2 +
(z1-z2)**2)`), and of the spec-modelled `math_helpers.DistanceBetweenPoints`
("Euclidean ground-plane distance"), which orders points identically. -/
def distSq (a b : ℚ × ℚ) : ℚ :=
  (a.1 - b.1) ^ 2 + (a.2 - b.2) ^ 2

/-- Modelled from the spec: `math_helpers.IsInFront` is not under `src/`.
The spec describes it as a "front/behind test (dot-product-style check
against heading direction)".  The heading is represented by its forward
direction vector `fwd`; a point is in front when the displacement from
`pos` to `point` has positive dot product with `fwd`. -/
def isInFront (point : ℚ × ℚ) (fwd : ℚ × ℚ) (pos : ℚ × ℚ) : Bool :=
  decide (0 < fwd.1 * (point.1 - pos.1) + fwd.2 * (point.2 - pos.2))

/-- Embeds `distance_point_to_line_segment` of
`src/Plugins/Map/utils/lane_safety.py`, returning the SQUARE of the source's
return value (the source returns `math.sqrt` of exactly this quantity).
The degenerate zero-length segment falls back to point distance, as in the
source. -/
def distSqPointToLineSegment (point lineStart lineEnd : ℚ × ℚ) : ℚ :=
  let dx := lineEnd.1 - lineStart.1
  let dz := lineEnd.2 - lineStart.2
  let lengthSq := dx * dx + dz * dz
  if lengthSq = 0 then
    (point.1 - lineStart.1) ^ 2 + (point.2 - lineStart.2) ^ 2
  else
    let t := maxQ 0 (minQ 1 (((point.1 - lineStart.1) * dx + (point.2 - lineStart.2) * dz) / lengthSq))
    let closestX := lineStart.1 + t * dx
    let closestZ := lineStart.2 + t * dz
    (point.1 - closestX) ^ 2 + (point.2 - closestZ) ^ 2

/-- Ground-plane position with coordinates `x`, `z`; used both for traffic
vehicles (`Modules.Traffic.classes.Vehicle.position`) and for lane geometry
points (`Plugins.Map.classes.Position`), of which `lane_safety.py` reads
exactly the `x` and `z` attributes. -/
structure Position where
  x : ℚ
  z : ℚ
deriving DecidableEq

/-- Modelled from the spec: `Position.is_zero` belongs to the external
traffic module, not under `src/`; the spec says "a zero/null position means
'not currently valid' and must be skipped". -/
def Position.isZero (p : Position) : Bool :=
  decide (p.x = 0) && decide (p.z = 0)

/-- Traffic vehicle; `lane_safety.py` reads only its position. -/
structure Vehicle where
  position : Position
deriving DecidableEq

/-- One lane of the road passed to `check_lane_safety`; `points` is `none`
when the Python object lacks the `points` attribute. -/
structure Lane where
  points : Option (List Position)
deriving DecidableEq

/-- The road object passed to `check_lane_safety`; `lanes` is `none` when
the Python object lacks the `lanes` attribute. -/
structure Road where
  lanes : Option (List Lane)
deriving DecidableEq

/-- The three module-level state variables of `lane_safety.py`
(`_pending_lane_change`, `_target_lane_index`, `_slow_down_for_lane_change`),
passed and returned explicitly. -/
structure LaneChangeState where
  pendingLaneChange : Bool
  targetLaneIndex : Option ℕ
  slowDownForLaneChange : Bool
deriving DecidableEq

/-- Minimum of a list of rationals; the source applies Python `min` only to
non-empty collections (`min()` of an empty iterable would raise, and every
use below is guarded by a non-emptiness check). -/
def listMinQ : List ℚ → ℚ
  | [] => 0
  | [x] => x
  | x :: xs => minQ x (listMinQ xs)

/-- Squared minimum distance from a point to a polyline: the
`min_dist_to_lane` loop of `is_vehicle_in_lane`, which starts from
`float('inf')` and takes the minimum over the segments
`(lane_points[i], lane_points[i+1])`. -/
def minDistSqToLane (vehiclePos : ℚ × ℚ) (lanePoints : List Position) : ℚ :=
  listMinQ ((List.zip lanePoints lanePoints.tail).map
    (fun pq => distSqPointToLineSegment vehiclePos (pq.1.x, pq.1.z) (pq.2.x, pq.2.z)))

/-- Embeds `is_vehicle_in_lane` of `lane_safety.py`.  Squared thresholds:
the screening window `dist > max_check + 10` becomes `distSq > 40² = 1600`
(in front) or `distSq > 25² = 625` (behind), and the half-lane-width test
`min_dist < 3.5/2 + 1 = 2.75` becomes `minDistSq < 2.75² = 121/16`. -/
def isVehicleInLane (vehicle : Vehicle) (lanePoints : List Position)
    (truckPos : ℚ × ℚ) (truckFwd : ℚ × ℚ) : Bool :=
  if lanePoints.length < 2 then false
  else
    let vehiclePos := (vehicle.position.x, vehicle.position.z)
    let inFront := isInFront vehiclePos truckFwd truckPos
    let distToTruckSq := distSq vehiclePos truckPos
    let maxCheckSq : ℚ := if inFront then 1600 else 625
    if maxCheckSq < distToTruckSq then false
    else
      decide (minDistSqToLane vehiclePos lanePoints < 121 / 16)

/-- Squared distances of the blocking vehicles collected by the loop of
`check_lane_safety` (lines 158-179): vehicles with a zero position are
skipped, lane membership is tested with `isVehicleInLane`, and the member is
blocking when it is ahead (`dist < 30`, in front), behind (`dist < 15`, not
in front) or beside (`dist < 8`); thresholds appear squared (900, 225, 64). -/
def blockingSqDists (vehicles : List Vehicle) (lanePoints : List Position)
    (truckPos : ℚ × ℚ) (truckFwd : ℚ × ℚ) : List ℚ :=
  vehicles.filterMap (fun vehicle =>
    if vehicle.position.isZero then none
    else if isVehicleInLane vehicle lanePoints truckPos truckFwd then
      let vehiclePos := (vehicle.position.x, vehicle.position.z)
      let dSq := distSq vehiclePos truckPos
      let inFront := isInFront vehiclePos truckFwd truckPos
      if inFront ∧ dSq < 900 then some dSq
      else if ¬ inFront ∧ dSq < 225 then some dSq
      else if dSq < 64 then some dSq
      else none
    else none)

/-- Embeds `check_lane_safety` of `lane_safety.py`.  The external traffic
collaborator (`get_vehicles_from_plugin`) and pose (`data.truck_x`,
`data.truck_z`, `data.truck_rotation`) are passed as arguments; the three
module-level state variables are passed in and returned.  The returned
rational is the SQUARE of the source's speed factor: every safe branch
returns `1 = 1²`, and the blocking branch returns
`min 1 (max (3/10)² (closestDistSq/30²))`, the square of the source's
`min(1.0, max(0.3, closest_dist/30))`. -/
def checkLaneSafety (targetLaneIndex currentLaneIndex : ℕ) (road : Road)
    (vehicles : List Vehicle) (truckPos : ℚ × ℚ) (truckFwd : ℚ × ℚ)
    (st : LaneChangeState) : LaneChangeState × Bool × ℚ :=
  if targetLaneIndex = currentLaneIndex then
    ({ st with pendingLaneChange := false, slowDownForLaneChange := false }, true, 1)
  else if vehicles.isEmpty then
    (st, true, 1)
  else
    match road.lanes with
    | none => (st, true, 1)
    | some lanes =>
      match lanes[targetLaneIndex]? with
      | none => (st, true, 1)
      | some targetLane =>
        match targetLane.points with
        | none => (st, true, 1)
        | some lanePoints =>
          if lanePoints.isEmpty then (st, true, 1)
          else
            let blocking := blockingSqDists vehicles lanePoints truckPos truckFwd
            if blocking.isEmpty then
              ({ st with pendingLaneChange := false, slowDownForLaneChange := false }, true, 1)
            else
              let closestDistSq := listMinQ blocking
              let speedFactorSq := minQ 1 (maxQ (9 / 100) (closestDistSq / 900))
              (⟨true, some targetLaneIndex, true⟩, false, speedFactorSq)

/-- Embeds `is_waiting_for_lane_change` of `lane_safety.py`. -/
def isWaitingForLaneChange (st : LaneChangeState) : Bool :=
  st.pendingLaneChange

/-- Embeds `reset_lane_change_state` of `lane_safety.py`. -/
def resetLaneChangeState : LaneChangeState :=
  ⟨false, none, false⟩

/-- Fail-open early-return condition of `check_lane_safety` reached when the
target differs from the current lane: no traffic data, road without usable
lane data for the target index, or a target lane without geometry points
(lines 140-152 of `lane_safety.py`). -/
def failOpenEarly (targetLaneIndex : ℕ) (road : Road) (vehicles : List Vehicle) : Bool :=
  vehicles.isEmpty ||
    match road.lanes with
    | none => true
    | some lanes =>
      match lanes[targetLaneIndex]? with
      | none => true
      | some lane =>
        match lane.points with
        | none => true
        | some pts => pts.isEmpty

/-- Node of the navigation graph (`Plugins.Map.classes.Node` as read by
`node_helpers.py`): unique id, ground-plane coordinates `x`, `y` (the
attributes `get_surrounding_nav_nodes` reads), and the optional
forward/backward item ids, where `none` models Python `None` and `some 0`
the sentinel id 0. -/
structure Node where
  uid : ℕ
  x : ℚ
  y : ℚ
  forwardItemUid : Option ℕ
  backwardItemUid : Option ℕ
deriving DecidableEq

/-- Python truthiness of an optional item id: `None` and `0` are falsy;
this is the `node_1_forward_item and ...` guard of
`get_connecting_item_uid`. -/
def truthyUid : Option ℕ → Bool
  | none => false
  | some n => decide (n ≠ 0)

/-- Embeds `get_connecting_item_uid` of
`src/Plugins/Map/utils/node_helpers.py`: four pairings tried in order,
the first-side id must be truthy (not `None`, not 0) and equal to the
second-side id; `none` when no pairing matches. -/
def getConnectingItemUid (node1 node2 : Node) : Option ℕ :=
  let node1Forward := node1.forwardItemUid
  let node1Backward := node1.backwardItemUid
  let node2Forward := node2.forwardItemUid
  let node2Backward := node2.backwardItemUid
  if truthyUid node1Forward ∧ node1Forward = node2Backward then node1Forward
  else if truthyUid node1Backward ∧ node1Backward = node2Forward then node1Backward
  else if truthyUid node1Forward ∧ node1Forward = node2Forward then node1Forward
  else if truthyUid node1Backward ∧ node1Backward = node2Backward then node1Backward
  else none

/-- The four candidate id pairings of `get_connecting_item_uid`, in the
precedence order of the source. -/
def connectingPairs (node1 node2 : Node) : List (Option ℕ × Option ℕ) :=
  [(node1.forwardItemUid, node2.backwardItemUid),
   (node1.backwardItemUid, node2.forwardItemUid),
   (node1.forwardItemUid, node2.forwardItemUid),
   (node1.backwardItemUid, node2.backwardItemUid)]

/-- Declarative form of the spec's description of the connecting-item
query: the first pairing (in precedence order) whose two ids are equal and
not the sentinel yields the result. -/
def connectingItemUidSpec (node1 node2 : Node) : Option ℕ :=
  ((connectingPairs node1 node2).find?
    (fun p => truthyUid p.1 && decide (p.1 = p.2))).bind (fun p => p.1)

/-- Embeds `rotate_right` of `node_helpers.py`: `arr[-count:] + arr[:-count]`
for `0 < count`, identity for `count = 0`.  The source asserts
`0 ≤ count < len(arr)`; theorems about this function carry that bound as a
hypothesis. -/
def rotateRight {α : Type} (arr : List α) (count : ℕ) : List α :=
  if count = 0 then arr
  else arr.drop (arr.length - count) ++ arr.take (arr.length - count)

/-- Prefab-local node descriptor of a `PrefabDescription`: the input-lane
and output-lane index sets read by `get_connecting_lanes_by_item`. -/
structure PrefabNode where
  inputLanes : List ℕ
  outputLanes : List ℕ
deriving DecidableEq

/-- One navigation route of a prefab description: its ordered chain of
curves.  Curves are identified by ids with decidable equality, standing for
the Python curve objects compared by `description.nav_curves.index(curve)`. -/
structure NavRoute where
  curves : List ℕ
deriving DecidableEq

/-- Shared prefab description: ordered node descriptors, ordered list of
navigation curves, ordered list of navigation routes. -/
structure PrefabDescription where
  nodes : List PrefabNode
  navCurves : List ℕ
  navRoutes : List NavRoute
deriving DecidableEq

/-- Prefab item as read by `get_connecting_lanes_by_item`: boundary node
uids, origin node index, and the optional resolved description. -/
structure Prefab where
  uid : ℕ
  nodeUids : List ℕ
  originNodeIndex : ℕ
  prefabDescription : Option PrefabDescription
deriving DecidableEq

/-- Road look of a road item; only the lengths of the two lane lists are
read by `get_connecting_lanes_by_item`, the elements stand for the
per-lane records of the source. -/
structure RoadLook where
  lanesLeft : List ℕ
  lanesRight : List ℕ
deriving DecidableEq

/-- Road item as read by `get_connecting_lanes_by_item`: optional road
look and the uid of the start node. -/
structure RoadItem where
  uid : ℕ
  roadLook : Option RoadLook
  startNodeUid : ℕ
deriving DecidableEq

/-- The item passed to `get_connecting_lanes_by_item`: a road, a prefab, or
anything else (the `isinstance` chain's final `else`). -/
inductive Item where
  | road (r : RoadItem)
  | prefab (p : Prefab)
  | other
deriving DecidableEq

/-- Map data collaborator: `get_node_by_uid`, which may return `None`. -/
structure MapData where
  getNodeByUid : ℕ → Option Node

/-- The scan over one route's curve chain in `get_connecting_lanes_by_item`
(lines 152-165 of `node_helpers.py`): walk the curves in order carrying the
`start_found` flag; a curve absent from `nav_curves` is skipped (the
`ValueError` branch); the first curve whose index is in the end node's
output lanes after `start_found` is set accepts the route. -/
def scanCurves (navCurves inputLanes outputLanes : List ℕ) :
    List ℕ → Bool → Bool
  | [], _ => false
  | curve :: rest, startFound =>
    if curve ∈ navCurves then
      let index := navCurves.indexOf curve
      let startFound' := startFound || decide (index ∈ inputLanes)
      if index ∈ outputLanes ∧ startFound' = true then true
      else scanCurves navCurves inputLanes outputLanes rest startFound'
    else scanCurves navCurves inputLanes outputLanes rest startFound

/-- The `for i, route in enumerate(routes)` accumulation of accepted route
indices in `get_connecting_lanes_by_item`, with the running index made
explicit. -/
def acceptedRoutesAux (navCurves inputLanes outputLanes : List ℕ) :
    ℕ → List NavRoute → List ℕ
  | _, [] => []
  | i, route :: rest =>
    if scanCurves navCurves inputLanes outputLanes route.curves false then
      i :: acceptedRoutesAux navCurves inputLanes outputLanes (i + 1) rest
    else acceptedRoutesAux navCurves inputLanes outputLanes (i + 1) rest

/-- The `n and n.uid == node.uid` test used to locate a node in the rotated
node list (entries may be `None` when `get_node_by_uid` failed). -/
def nodeUidMatches (uid : ℕ) : Option Node → Bool
  | some m => decide (m.uid = uid)
  | none => false

/-- Embeds `get_connecting_lanes_by_item` of `node_helpers.py`.  For the
prefab branch, the `try`/`except` around the descriptor lookups is embedded
by the `Option` matches: an out-of-range `description.nodes[...]` access
(`IndexError`, caught by the handler) yields `[]`. -/
def getConnectingLanesByItem (node1 node2 : Node) (item : Item)
    (mapData : MapData) : List ℕ :=
  match item with
  | .road r =>
    match r.roadLook with
    | none => []
    | some look =>
      let leftLanes := look.lanesLeft.length
      let rightLanes := look.lanesRight.length
      if r.startNodeUid = node1.uid then
        List.range' leftLanes rightLanes
      else if 0 < leftLanes then
        List.range leftLanes
      else
        List.range rightLanes
  | .prefab p =>
    match p.prefabDescription with
    | none => []
    | some description =>
      let itemNodes := p.nodeUids.map mapData.getNodeByUid
      let rotatedNodes := rotateRight itemNodes p.originNodeIndex
      match rotatedNodes.findIdx? (nodeUidMatches node1.uid) with
      | none => []
      | some node1Index =>
        match description.nodes[node1Index]? with
        | none => []
        | some startPrefabNode =>
          match rotatedNodes.findIdx? (nodeUidMatches node2.uid) with
          | none => []
          | some node2Index =>
            match description.nodes[node2Index]? with
            | none => []
            | some endPrefabNode =>
              if node1Index = node2Index then []
              else if description.navRoutes.isEmpty then []
              else
                acceptedRoutesAux description.navCurves
                  startPrefabNode.inputLanes endPrefabNode.outputLanes
                  0 description.navRoutes
  | .other => []

/-- Route node of the planned path; `get_surrounding_nav_nodes` reads the
wrapped node. -/
structure RouteNode where
  node : Node
deriving DecidableEq

/-- Stable insertion of a node into a list sorted by squared distance to
`pos`: the node goes before the first element at the same or a larger
distance, as in Python's stable `sorted`. -/
def insertByDistSq (pos : ℚ × ℚ) (n : Node) : List Node → List Node
  | [] => [n]
  | m :: ms =>
    if distSq (m.x, m.y) pos < distSq (n.x, n.y) pos then
      m :: insertByDistSq pos n ms
    else n :: m :: ms

/-- Stable sort of the path by squared distance to `pos`; embeds
`sorted(path, key=DistanceBetweenPoints(..., position))` (squaring the key
preserves the order, and stability preserves the first-occurrence
tie-break). -/
def sortByDistSq (pos : ℚ × ℚ) : List Node → List Node
  | [] => []
  | n :: ns => insertByDistSq pos n (sortByDistSq pos ns)

/-- Embeds `get_surrounding_nav_nodes` of `node_helpers.py`.  The rotation
argument of the source is represented by the forward direction vector
`fwd` (see `isInFront`).  On an empty path the source raises `IndexError`
at `distance_ordered[0]`; the embedding returns `(none, none)` there, and
no claim concerns the empty path. -/
def getSurroundingNavNodes (routeNodes : List RouteNode) (x z : ℚ)
    (fwd : ℚ × ℚ) : Option Node × Option Node :=
  let position := (x, z)
  let path := routeNodes.map (fun r => r.node)
  match sortByDistSq position path with
  | [] => (none, none)
  | closest :: _ =>
    let inFrontClosest := isInFront (closest.x, closest.y) fwd position
    let index := path.findIdx (fun n => n == closest)
    let lowerBound := if inFrontClosest then index - 1 else index
    let upperBound :=
      if inFrontClosest then
        if lowerBound = 0 then index + 2 else index + 1
      else min path.length (index + 2)
    let closestNodes := (path.drop lowerBound).take (upperBound - lowerBound)
    match closestNodes.find? (fun n => !(isInFront (n.x, n.y) fwd position)),
          closestNodes.find? (fun n => isInFront (n.x, n.y) fwd position) with
    | some lastNode, some nextNode => (some lastNode, some nextNode)
    | _, _ => (none, none)

/-- Frames-mode smoother state of `SmoothedValue` in
`src/ETS2LA/Utils/Values/numbers.py`: `smoothingAmount` is the capacity of
the `deque(maxlen=...)`, `valueArray` its contents.  The constructor seeds
the deque with a single `0`.  Only the `"frames"` mode is embedded: the
`"time"` mode reads the wall clock (`time.perf_counter`), an external
collaborator no claim depends on. -/
structure SmoothedValue where
  smoothingAmount : ℕ
  valueArray : List ℚ
deriving DecidableEq

/-- Embeds `SmoothedValue.__init__` with `smoothingType="frames"`: the
deque starts as `deque([0], maxlen=smoothingAmount)`. -/
def SmoothedValue.init (smoothingAmount : ℕ) : SmoothedValue :=
  ⟨smoothingAmount, [0]⟩

/-- Append to a `deque(maxlen=maxlen)`: the new value goes to the right and
the leftmost entries are silently discarded while the length exceeds
`maxlen`. -/
def dequeAppend (maxlen : ℕ) (xs : List ℚ) (v : ℚ) : List ℚ :=
  let ys := xs ++ [v]
  if maxlen < ys.length then ys.drop (ys.length - maxlen) else ys

/-- Embeds `SmoothedValue.smooth` in `"frames"` mode: append the value
(dropping the oldest beyond capacity) and return the new state together
with the average `sum(valueArray) / len(valueArray)`. -/
def SmoothedValue.smooth (s : SmoothedValue) (value : ℚ) : SmoothedValue × ℚ :=
  let arr := dequeAppend s.smoothingAmount s.valueArray value
  (⟨s.smoothingAmount, arr⟩, arr.sum / (arr.length : ℚ))

/-- Declarative route-acceptance condition, following the spec's words for
the prefab route scan: the curve chain, walked in order, contains a curve
whose index (in `navCurves`) lies in the start node's input lanes, and at
or after that point a curve whose index lies in the end node's output
lanes.  Curves absent from `navCurves` carry no index (the source skips
them). -/
def RouteConnectsSpec (navCurves inputLanes outputLanes curveChain : List ℕ) : Prop :=
  ∃ before startCurve after,
    curveChain = before ++ startCurve :: after ∧
    startCurve ∈ navCurves ∧ navCurves.indexOf startCurve ∈ inputLanes ∧
    ∃ c ∈ startCurve :: after, c ∈ navCurves ∧ navCurves.indexOf c ∈ outputLanes

/-- Helper predicate for `RouteConnectsSpec`: some curve of the chain has
an index in the given output-lane set. -/
def HasOutputCurve (navCurves outputLanes curveChain : List ℕ) : Prop :=
  ∃ c ∈ curveChain, c ∈ navCurves ∧ navCurves.indexOf c ∈ outputLanes

/-- Window bounds of the path-window locator exactly as claimed by the
spec: `[index, index+2)` behind; `[0, index+2)` when ahead at index 0 (the
spec asserts `index-1` clamps to 0 only at index 0); `[index-1, index+1)`
in every other ahead case; clipped to path bounds. -/
def claimWindowBounds (inFrontClosest : Bool) (index pathLen : ℕ) : ℕ × ℕ :=
  if !inFrontClosest then (index, min pathLen (index + 2))
  else if index = 0 then (0, min pathLen (index + 2))
  else (index - 1, min pathLen (index + 1))

/-- Window bounds amended to what the source computes: the `[0, index+2)`
branch is taken whenever `max(0, index-1) = 0`, that is at index 0 AND at
index 1, not only at index 0. -/
def amendedWindowBounds (inFrontClosest : Bool) (index pathLen : ℕ) : ℕ × ℕ :=
  if !inFrontClosest then (index, min pathLen (index + 2))
  else if index ≤ 1 then (0, min pathLen (index + 2))
  else (index - 1, min pathLen (index + 1))

/-- Path-window locator built from explicit window bounds; shared shape of
the claimed and amended forms of `get_surrounding_nav_nodes`: sort by
distance, classify the closest node, select the window, return the first
behind node and the first ahead node, or `(none, none)` if either is
missing. -/
def surroundingNodesWith (window : Bool → ℕ → ℕ → ℕ × ℕ)
    (routeNodes : List RouteNode) (x z : ℚ) (fwd : ℚ × ℚ) :
    Option Node × Option Node :=
  let position := (x, z)
  let path := routeNodes.map (fun r => r.node)
  match sortByDistSq position path with
  | [] => (none, none)
  | closest :: _ =>
    let inFrontClosest := isInFront (closest.x, closest.y) fwd position
    let index := path.findIdx (fun n => n == closest)
    let bounds := window inFrontClosest index path.length
    let closestNodes := (path.drop bounds.1).take (bounds.2 - bounds.1)
    match closestNodes.find? (fun n => !(isInFront (n.x, n.y) fwd position)),
          closestNodes.find? (fun n => isInFront (n.x, n.y) fwd position) with
    | some lastNode, some nextNode => (some lastNode, some nextNode)
    | _, _ => (none, none)

/-- The path-window locator exactly as the claim describes it. -/
def surroundingNodesClaimed (routeNodes : List RouteNode) (x z : ℚ)
    (fwd : ℚ × ℚ) : Option Node × Option Node :=
  surroundingNodesWith claimWindowBounds routeNodes x z fwd

/-- The path-window locator with the amended window-selection rule. -/
def surroundingNodesAmended (routeNodes : List RouteNode) (x z : ℚ)
    (fwd : ℚ × ℚ) : Option Node × Option Node :=
  surroundingNodesWith amendedWindowBounds routeNodes x z fwd

/-- C10: a smoother constructed in "frames" mode with capacity 3, after
pushing 1, 2, 3, 4 in order, reports an average of (2+3+4)/3 = 3, and the
stored samples are [2, 3, 4]: each insert beyond capacity silently dropped
the oldest stored sample (first the seeded 0, then the 1). -/
theorem smoothedValue_frames_drops_oldest :
    (((((SmoothedValue.init 3).smooth 1).1.smooth 2).1.smooth 3).1.smooth 4).2
        = (2 + 3 + 4) / 3 ∧
    (((((SmoothedValue.init 3).smooth 1).1.smooth 2).1.smooth 3).1.smooth 4).1.valueArray
        = [2, 3, 4] := by
  norm_num [SmoothedValue.init, SmoothedValue.smooth, dequeAppend]

/-- C4 (counterexample): right-rotating the list [10, 11, 12, 13] by origin
index 1 yields [13, 10, 11, 12], whose first element is the node recorded at
index 3 = length - 1, not the node recorded at the origin index 1. -/
theorem rotateRight_origin_counterexample :
    ¬ (rotateRight [10, 11, 12, 13] 1).head? = ([10, 11, 12, 13] : List ℕ)[1]? := by
  decide

/-- C4 (amended): for every list and origin index with 0 ≤ origin < length,
the right-rotation by origin performed by the lane-connectivity resolver
places the element recorded at index (length - origin) % length first; the
element at the origin index itself comes first only when origin = 0. -/
theorem rotateRight_head {α : Type} (arr : List α) (origin : ℕ)
    (h : origin < arr.length) :
    (rotateRight arr origin).head? = arr[(arr.length - origin) % arr.length]? := by
  rcases Nat.eq_zero_or_pos origin with rfl | hpos
  · rw [rotateRight, if_pos rfl, Nat.sub_zero, Nat.mod_self, List.head?_eq_getElem?]
  · rw [rotateRight, if_neg (Nat.pos_iff_ne_zero.mp hpos)]
    have hlt : arr.length - origin < arr.length := Nat.sub_lt (by omega) hpos
    rw [Nat.mod_eq_of_lt hlt,
      List.head?_append_of_ne_nil _ (by rw [Ne, List.drop_eq_nil_iff]; omega),
      List.head?_drop]

/-- Witness for `rotateRight_head` at the concrete list [10, 11, 12, 13]
with origin 1: the head of the rotation is the element at index
(4 - 1) % 4 = 3, namely 13. -/
theorem rotateRight_head_witness :
    1 < ([10, 11, 12, 13] : List ℕ).length ∧
    (rotateRight [10, 11, 12, 13] 1).head?
      = ([10, 11, 12, 13] : List ℕ)[(([10, 11, 12, 13] : List ℕ).length - 1) % ([10, 11, 12, 13] : List ℕ).length]? ∧
    (rotateRight [10, 11, 12, 13] 1).head? = some 13 :=
  ⟨by decide, rotateRight_head [10, 11, 12, 13] 1 (by decide), by decide⟩

/-- C6: connecting lanes across a Road item.  Unresolved road look gives [];
when node_1 is the start node the result is exactly the contiguous
right-side range [left, left + right); otherwise the left-side range
[0, left) when it is non-empty, else the fallback range [0, right). -/
theorem getConnectingLanesByItem_road (node1 node2 : Node) (r : RoadItem)
    (mapData : MapData) :
    (r.roadLook = none →
      getConnectingLanesByItem node1 node2 (Item.road r) mapData = []) ∧
    ∀ look, r.roadLook = some look →
      (r.startNodeUid = node1.uid →
        getConnectingLanesByItem node1 node2 (Item.road r) mapData
          = List.range' look.lanesLeft.length look.lanesRight.length ∧
        ∀ i, i ∈ getConnectingLanesByItem node1 node2 (Item.road r) mapData ↔
          look.lanesLeft.length ≤ i ∧ i < look.lanesLeft.length + look.lanesRight.length) ∧
      (r.startNodeUid ≠ node1.uid → 0 < look.lanesLeft.length →
        getConnectingLanesByItem node1 node2 (Item.road r) mapData
          = List.range look.lanesLeft.length ∧
        ∀ i, i ∈ getConnectingLanesByItem node1 node2 (Item.road r) mapData ↔
          i < look.lanesLeft.length) ∧
      (r.startNodeUid ≠ node1.uid → look.lanesLeft.length = 0 →
        getConnectingLanesByItem node1 node2 (Item.road r) mapData
          = List.range look.lanesRight.length ∧
        ∀ i, i ∈ getConnectingLanesByItem node1 node2 (Item.road r) mapData ↔
          i < look.lanesRight.length) := by
  refine ⟨fun hnone => ?_, fun look hlook => ⟨fun hstart => ?_, fun hstart hleft => ?_, fun hstart hleft => ?_⟩⟩
  · simp [getConnectingLanesByItem, hnone]
  · simp [getConnectingLanesByItem, hlook, hstart, List.mem_range'_1]
  · simp [getConnectingLanesByItem, hlook, hstart, hleft, List.mem_range]
  · simp [getConnectingLanesByItem, hlook, hstart, hleft, List.mem_range]

/-- Witness for `getConnectingLanesByItem_road`: a road with 2 left lanes
and 3 right lanes traversed forward (node_1 is the start node) yields the
right-side range, which is the concrete list [2, 3, 4]. -/
theorem getConnectingLanesByItem_road_witness :
    getConnectingLanesByItem ⟨1, 0, 0, none, none⟩ ⟨2, 0, 0, none, none⟩
      (Item.road ⟨7, some ⟨[0, 0], [0, 0, 0]⟩, 1⟩) ⟨fun _ => none⟩ = [2, 3, 4] := by
  rw [((getConnectingLanesByItem_road ⟨1, 0, 0, none, none⟩ ⟨2, 0, 0, none, none⟩
      ⟨7, some ⟨[0, 0], [0, 0, 0]⟩, 1⟩ ⟨fun _ => none⟩).2 ⟨[0, 0], [0, 0, 0]⟩ rfl).1 rfl |>.1]
  decide

theorem pairPredFalse (a b : Option ℕ) (h : ¬(truthyUid a = true ∧ a = b)) :
    (truthyUid a && decide (a = b)) = false := by
  cases hx : truthyUid a
  · simp
  · simp only [hx, Bool.true_and, decide_eq_false_iff_not]
    intro hab
    exact h ⟨hx, hab⟩

/-- C7: the connecting-item query checks the four pairings
(forward, backward), (backward, forward), (forward, forward),
(backward, backward) in that precedence order, returns the id of the first
equal truthy pair (equal to the declarative first-match over the pair
list), never returns the sentinel 0, and returns none when no pairing
matches. -/
theorem getConnectingItemUid_firstMatch (node1 node2 : Node) :
    getConnectingItemUid node1 node2 = connectingItemUidSpec node1 node2 ∧
    ∀ u, getConnectingItemUid node1 node2 = some u → u ≠ 0 := by
  constructor
  · simp only [getConnectingItemUid, connectingItemUidSpec, connectingPairs]
    split_ifs with h1 h2 h3 h4
    · rw [List.find?_cons_of_pos _ (by simp [← h1.2, h1.1])]
      simp
    · rw [List.find?_cons_of_neg _ (by simp [pairPredFalse _ _ h1]),
        List.find?_cons_of_pos _ (by simp [← h2.2, h2.1])]
      simp
    · rw [List.find?_cons_of_neg _ (by simp [pairPredFalse _ _ h1]),
        List.find?_cons_of_neg _ (by simp [pairPredFalse _ _ h2]),
        List.find?_cons_of_pos _ (by simp [← h3.2, h3.1])]
      simp
    · rw [List.find?_cons_of_neg _ (by simp [pairPredFalse _ _ h1]),
        List.find?_cons_of_neg _ (by simp [pairPredFalse _ _ h2]),
        List.find?_cons_of_neg _ (by simp [pairPredFalse _ _ h3]),
        List.find?_cons_of_pos _ (by simp [← h4.2, h4.1])]
      simp
    · rw [List.find?_cons_of_neg _ (by simp [pairPredFalse _ _ h1]),
        List.find?_cons_of_neg _ (by simp [pairPredFalse _ _ h2]),
        List.find?_cons_of_neg _ (by simp [pairPredFalse _ _ h3]),
        List.find?_cons_of_neg _ (by simp [pairPredFalse _ _ h4])]
      simp
  · intro u hu
    simp only [getConnectingItemUid] at hu
    split_ifs at hu with h1 h2 h3 h4
    · rw [hu] at h1; simpa [truthyUid] using h1.1
    · rw [hu] at h2; simpa [truthyUid] using h2.1
    · rw [hu] at h3; simpa [truthyUid] using h3.1
    · rw [hu] at h4; simpa [truthyUid] using h4.1

/-- Witness for `getConnectingItemUid_firstMatch`: two nodes joined by item
5 through node_1.forward = node_2.backward; the query agrees with the
declarative first-match and the returned id 5 is not the sentinel. -/
theorem getConnectingItemUid_firstMatch_witness :
    getConnectingItemUid ⟨1, 0, 0, some 5, some 7⟩ ⟨2, 0, 0, some 7, some 5⟩
      = connectingItemUidSpec ⟨1, 0, 0, some 5, some 7⟩ ⟨2, 0, 0, some 7, some 5⟩ ∧
    (5 : ℕ) ≠ 0 :=
  ⟨(getConnectingItemUid_firstMatch _ _).1,
   (getConnectingItemUid_firstMatch ⟨1, 0, 0, some 5, some 7⟩ ⟨2, 0, 0, some 7, some 5⟩).2
     5 (by decide)⟩

/-- C2 (counterexample): a vehicle centered in the target lane and 39 m
ahead of the truck is inside the screening window (`is_vehicle_in_lane`
accepts it) yet the evaluation returns safe = true, not safe = false as the
claim states: the ahead classification threshold is 30 m, so a vehicle
between 30 m and 40 m ahead is screened in but never classified as
blocking.  Distances appear squared (39² = 1521). -/
theorem laneSafety_39m_counterexample :
    isVehicleInLane ⟨⟨0, 39⟩⟩ [⟨0, 0⟩, ⟨0, 50⟩] (0, 0) (0, 1) = true ∧
    ¬ (checkLaneSafety 1 0 ⟨some [⟨some []⟩, ⟨some [⟨0, 0⟩, ⟨0, 50⟩]⟩]⟩
        [⟨⟨0, 39⟩⟩] (0, 0) (0, 1) ⟨false, none, false⟩).2.1 = false := by
  norm_num [checkLaneSafety, blockingSqDists, isVehicleInLane, minDistSqToLane,
    distSqPointToLineSegment, distSq, isInFront, minQ, maxQ, listMinQ,
    Position.isZero, List.filterMap]

/-- C2 (amended): a vehicle centered in the target lane 39 m ahead passes
the screening window (30 m ahead-threshold + 10 m margin), but since the
ahead classification needs distance < 30 m it is not blocking and the
evaluation returns safe = true; the same vehicle 41 m ahead is outside the
screening window (`is_vehicle_in_lane` rejects it) and the evaluation
likewise returns safe = true. -/
theorem laneSafety_screening_edge :
    (isVehicleInLane ⟨⟨0, 39⟩⟩ [⟨0, 0⟩, ⟨0, 50⟩] (0, 0) (0, 1) = true ∧
     (checkLaneSafety 1 0 ⟨some [⟨some []⟩, ⟨some [⟨0, 0⟩, ⟨0, 50⟩]⟩]⟩
        [⟨⟨0, 39⟩⟩] (0, 0) (0, 1) ⟨false, none, false⟩).2 = (true, 1)) ∧
    (isVehicleInLane ⟨⟨0, 41⟩⟩ [⟨0, 0⟩, ⟨0, 50⟩] (0, 0) (0, 1) = false ∧
     (checkLaneSafety 1 0 ⟨some [⟨some []⟩, ⟨some [⟨0, 0⟩, ⟨0, 50⟩]⟩]⟩
        [⟨⟨0, 41⟩⟩] (0, 0) (0, 1) ⟨false, none, false⟩).2 = (true, 1)) := by
  norm_num [checkLaneSafety, blockingSqDists, isVehicleInLane, minDistSqToLane,
    distSqPointToLineSegment, distSq, isInFront, minQ, maxQ, listMinQ,
    Position.isZero, List.filterMap]

/-- C3: the lane-safety evaluation returns (safe = true, factor = 1) on
every fail-open branch: target lane equal to the current lane (which also
clears the pending-change and must-slow-down flags), no vehicles from the
traffic collaborator, missing lane data for the target index, or a target
lane without geometry points.  The embedding is a total function, so none
of these branches can raise. -/
theorem checkLaneSafety_failOpen (targetLaneIndex currentLaneIndex : ℕ)
    (road : Road) (vehicles : List Vehicle) (truckPos truckFwd : ℚ × ℚ)
    (st : LaneChangeState)
    (h : targetLaneIndex = currentLaneIndex ∨
      failOpenEarly targetLaneIndex road vehicles = true) :
    (checkLaneSafety targetLaneIndex currentLaneIndex road vehicles truckPos
      truckFwd st).2 = (true, 1) ∧
    (targetLaneIndex = currentLaneIndex →
      (checkLaneSafety targetLaneIndex currentLaneIndex road vehicles truckPos
        truckFwd st).1.pendingLaneChange = false ∧
      (checkLaneSafety targetLaneIndex currentLaneIndex road vehicles truckPos
        truckFwd st).1.slowDownForLaneChange = false) := by
  by_cases hc : targetLaneIndex = currentLaneIndex
  · simp [checkLaneSafety, hc]
  · refine ⟨?_, fun hcc => absurd hcc hc⟩
    rcases h with h | h
    · exact absurd h hc
    rcases hro : road.lanes with _ | lanes
    · simp [checkLaneSafety, hc, hro]
    · simp only [failOpenEarly, hro, Bool.or_eq_true] at h
      rcases h with h | h
      · simp [checkLaneSafety, hc, h]
      · rcases hlt : lanes[targetLaneIndex]? with _ | lane
        · simp [checkLaneSafety, hc, hro, hlt]
        · simp only [hlt] at h
          rcases hpts : lane.points with _ | pts
          · simp [checkLaneSafety, hc, hro, hlt, hpts]
          · simp only [hpts] at h
            simp [checkLaneSafety, hc, hro, hlt, hpts, h]

/-- Witness for `checkLaneSafety_failOpen`: target lane 2 equals current
lane 2, so the evaluation returns (true, 1) and clears both flags even
though the incoming state was pending. -/
theorem checkLaneSafety_failOpen_witness :
    (checkLaneSafety 2 2 ⟨none⟩ [] (0, 0) (0, 1) ⟨true, some 2, true⟩).2 = (true, 1) ∧
    (checkLaneSafety 2 2 ⟨none⟩ [] (0, 0) (0, 1) ⟨true, some 2, true⟩).1.pendingLaneChange = false ∧
    (checkLaneSafety 2 2 ⟨none⟩ [] (0, 0) (0, 1) ⟨true, some 2, true⟩).1.slowDownForLaneChange = false :=
  ⟨(checkLaneSafety_failOpen 2 2 ⟨none⟩ [] (0, 0) (0, 1) ⟨true, some 2, true⟩ (Or.inl rfl)).1,
   (checkLaneSafety_failOpen 2 2 ⟨none⟩ [] (0, 0) (0, 1) ⟨true, some 2, true⟩ (Or.inl rfl)).2 rfl⟩

/-- C9: frame effect of the fail-open early returns of `check_lane_safety`.
When the target differs from the current lane and a fail-open branch is
taken (no vehicles, missing lane data, or no geometry points), the call
returns (safe = true, factor = 1) with the three state variables unchanged,
so `is_waiting_for_lane_change` still reports true afterwards.  Moreover a
pending flag can only be cleared by the target-equals-current branch or the
no-blocking-vehicles branch, and the explicit reset clears it. -/
theorem checkLaneSafety_frame (targetLaneIndex currentLaneIndex : ℕ)
    (road : Road) (vehicles : List Vehicle) (truckPos truckFwd : ℚ × ℚ)
    (st : LaneChangeState) :
    (targetLaneIndex ≠ currentLaneIndex →
      failOpenEarly targetLaneIndex road vehicles = true →
      checkLaneSafety targetLaneIndex currentLaneIndex road vehicles truckPos
        truckFwd st = (st, true, 1) ∧
      (st.pendingLaneChange = true →
        isWaitingForLaneChange (checkLaneSafety targetLaneIndex currentLaneIndex
          road vehicles truckPos truckFwd st).1 = true)) ∧
    (st.pendingLaneChange = true →
      (checkLaneSafety targetLaneIndex currentLaneIndex road vehicles truckPos
        truckFwd st).1.pendingLaneChange = false →
      targetLaneIndex = currentLaneIndex ∨
      ∃ lanes lane pts, road.lanes = some lanes ∧
        lanes[targetLaneIndex]? = some lane ∧ lane.points = some pts ∧
        pts ≠ [] ∧ vehicles ≠ [] ∧
        blockingSqDists vehicles pts truckPos truckFwd = []) ∧
    isWaitingForLaneChange resetLaneChangeState = false := by
  refine ⟨fun hne hfo => ?_, fun hp hres => ?_, rfl⟩
  · have hres : checkLaneSafety targetLaneIndex currentLaneIndex road vehicles
        truckPos truckFwd st = (st, true, 1) := by
      rcases hro : road.lanes with _ | lanes
      · simp [checkLaneSafety, hne, hro]
      · simp only [failOpenEarly, hro, Bool.or_eq_true] at hfo
        rcases hfo with h | h
        · simp [checkLaneSafety, hne, h]
        · rcases hlt : lanes[targetLaneIndex]? with _ | lane
          · simp [checkLaneSafety, hne, hro, hlt]
          · simp only [hlt] at h
            rcases hpts : lane.points with _ | pts
            · simp [checkLaneSafety, hne, hro, hlt, hpts]
            · simp only [hpts] at h
              simp [checkLaneSafety, hne, hro, hlt, hpts, h]
    exact ⟨hres, fun hp => by rw [hres]; exact hp⟩
  · by_cases hc : targetLaneIndex = currentLaneIndex
    · exact Or.inl hc
    right
    cases hv : vehicles.isEmpty with
    | true => simp [checkLaneSafety, hc, hv, hp] at hres
    | false =>
      rcases hro : road.lanes with _ | lanes
      · simp [checkLaneSafety, hc, hv, hro, hp] at hres
      rcases hlt : lanes[targetLaneIndex]? with _ | lane
      · simp [checkLaneSafety, hc, hv, hro, hlt, hp] at hres
      rcases hpts : lane.points with _ | pts
      · simp [checkLaneSafety, hc, hv, hro, hlt, hpts, hp] at hres
      cases hpe : pts.isEmpty with
      | true => simp [checkLaneSafety, hc, hv, hro, hlt, hpts, hpe, hp] at hres
      | false =>
        cases hbe : (blockingSqDists vehicles pts truckPos truckFwd).isEmpty with
        | true =>
          refine ⟨lanes, lane, pts, rfl, hlt, hpts, ?_, ?_, ?_⟩
          · intro hnil; simp [hnil] at hpe
          · intro hnil; simp [hnil] at hv
          · simpa using hbe
        | false =>
          simp [checkLaneSafety, hc, hv, hro, hlt, hpts, hpe, hbe, hp] at hres

/-- Witness for `checkLaneSafety_frame`: a pending state survives a
fail-open evaluation (no vehicles) unchanged and still reports waiting. -/
theorem checkLaneSafety_frame_witness :
    checkLaneSafety 1 0 ⟨none⟩ [] (0, 0) (0, 1) ⟨true, some 1, true⟩
      = (⟨true, some 1, true⟩, true, 1) ∧
    isWaitingForLaneChange (checkLaneSafety 1 0 ⟨none⟩ [] (0, 0) (0, 1)
      ⟨true, some 1, true⟩).1 = true :=
  ⟨((checkLaneSafety_frame 1 0 ⟨none⟩ [] (0, 0) (0, 1) ⟨true, some 1, true⟩).1
      (by decide) (by decide)).1,
   ((checkLaneSafety_frame 1 0 ⟨none⟩ [] (0, 0) (0, 1) ⟨true, some 1, true⟩).1
      (by decide) (by decide)).2 rfl⟩

theorem minQ_eq_min (a b : ℚ) : minQ a b = min a b := (min_def a b).symm

theorem maxQ_eq_max (a b : ℚ) : maxQ a b = max a b := by
  rcases lt_trichotomy a b with h | rfl | h
  · rw [maxQ, if_neg (not_le.mpr h), max_eq_right h.le]
  · simp [maxQ]
  · rw [maxQ, if_pos h.le, max_eq_left h.le]

theorem sqrtSpeedFactorSq (q : ℚ) (d : ℝ) (hd : 0 ≤ d) (hq : d ^ 2 = (q : ℝ)) :
    Real.sqrt ((minQ 1 (maxQ (9 / 100) (q / 900)) : ℚ) : ℝ)
      = min 1 (max (3 / 10) (d / 30)) := by
  rw [minQ_eq_min, maxQ_eq_max]
  push_cast
  rw [← hq]
  have key : min (1 : ℝ) (max (9 / 100) (d ^ 2 / 900))
      = (min 1 (max (3 / 10) (d / 30))) ^ 2 := by
    rcases le_total (d / 30) (3 / 10) with h | h
    · rw [max_eq_left h, max_eq_left (by nlinarith : d ^ 2 / 900 ≤ 9 / 100),
        min_eq_right (by norm_num : (9 : ℝ) / 100 ≤ 1),
        min_eq_right (by norm_num : (3 : ℝ) / 10 ≤ 1)]
      norm_num
    · rw [max_eq_right h, max_eq_right (by nlinarith : (9 : ℝ) / 100 ≤ d ^ 2 / 900)]
      rcases le_total (d / 30) 1 with h1 | h1
      · rw [min_eq_right (by nlinarith : d ^ 2 / 900 ≤ 1), min_eq_right h1]
        ring
      · rw [min_eq_left (by nlinarith : (1 : ℝ) ≤ d ^ 2 / 900), min_eq_left h1]
        norm_num
  rw [key, Real.sqrt_sq]
  have h0 : (0 : ℝ) ≤ max (3 / 10) (d / 30) := le_trans (by norm_num) (le_max_left _ _)
  exact le_min zero_le_one h0

/-- C1: whenever at least one vehicle with a non-zero position lies in the
target lane and is classified ahead (distance < 30 m and in front), behind
(distance < 15 m and not in front) or beside (distance < 8 m regardless),
the evaluation transitions to the pending-change state (pending flag set,
target lane stored, must-slow-down set) and returns safe = false with the
squared speed factor min 1 (max (3/10)² (closestSq/30²)) over the closest
blocking squared distance; under `Real.sqrt` this is exactly
clamp(closest_blocking_distance / 30, 0.3, 1.0).  Distances appear squared
(900 = 30², 225 = 15², 64 = 8²). -/
theorem checkLaneSafety_blocking (targetLaneIndex currentLaneIndex : ℕ)
    (road : Road) (vehicles : List Vehicle) (truckPos truckFwd : ℚ × ℚ)
    (st : LaneChangeState) (lanes : List Lane) (lane : Lane)
    (pts : List Position)
    (hne : targetLaneIndex ≠ currentLaneIndex)
    (hro : road.lanes = some lanes)
    (hlt : lanes[targetLaneIndex]? = some lane)
    (hpts : lane.points = some pts)
    (hblock : ∃ v ∈ vehicles, v.position.isZero = false ∧
      isVehicleInLane v pts truckPos truckFwd = true ∧
      ((isInFront (v.position.x, v.position.z) truckFwd truckPos = true ∧
          distSq (v.position.x, v.position.z) truckPos < 900) ∨
       (isInFront (v.position.x, v.position.z) truckFwd truckPos = false ∧
          distSq (v.position.x, v.position.z) truckPos < 225) ∨
       distSq (v.position.x, v.position.z) truckPos < 64)) :
    checkLaneSafety targetLaneIndex currentLaneIndex road vehicles truckPos
      truckFwd st
      = (⟨true, some targetLaneIndex, true⟩, false,
         minQ 1 (maxQ (9 / 100)
           (listMinQ (blockingSqDists vehicles pts truckPos truckFwd) / 900))) ∧
    ∀ d : ℝ, 0 ≤ d →
      d ^ 2 = ((listMinQ (blockingSqDists vehicles pts truckPos truckFwd) : ℚ) : ℝ) →
      Real.sqrt (((checkLaneSafety targetLaneIndex currentLaneIndex road
          vehicles truckPos truckFwd st).2.2 : ℚ) : ℝ)
        = min 1 (max (3 / 10) (d / 30)) := by
  obtain ⟨v, hv, hz, hl, hcls⟩ := hblock
  have hmem : distSq (v.position.x, v.position.z) truckPos ∈
      blockingSqDists vehicles pts truckPos truckFwd := by
    rw [blockingSqDists, List.mem_filterMap]
    refine ⟨v, hv, ?_⟩
    rcases hcls with ⟨hif, hlt9⟩ | ⟨hif, hlt2⟩ | hlt6
    · simp [hz, hl, hif, hlt9]
    · simp [hz, hl, hif, hlt2]
    · by_cases hif : isInFront (v.position.x, v.position.z) truckFwd truckPos = true
      · simp [hz, hl, hif, lt_trans hlt6 (by norm_num : (64 : ℚ) < 900)]
      · simp [hz, hl, hif, lt_trans hlt6 (by norm_num : (64 : ℚ) < 225)]
  have hbne : blockingSqDists vehicles pts truckPos truckFwd ≠ [] :=
    List.ne_nil_of_mem hmem
  have hbe : (blockingSqDists vehicles pts truckPos truckFwd).isEmpty = false := by
    simpa using hbne
  have hpe : pts.isEmpty = false := by
    cases pts with
    | nil => rw [isVehicleInLane] at hl; simp at hl
    | cons a l => rfl
  have hvne : vehicles.isEmpty = false := by
    cases vehicles with
    | nil => simp at hv
    | cons a l => rfl
  have hmain : checkLaneSafety targetLaneIndex currentLaneIndex road vehicles
      truckPos truckFwd st
      = (⟨true, some targetLaneIndex, true⟩, false,
         minQ 1 (maxQ (9 / 100)
           (listMinQ (blockingSqDists vehicles pts truckPos truckFwd) / 900))) := by
    simp [checkLaneSafety, hne, hvne, hro, hlt, hpts, hpe, hbe]
  refine ⟨hmain, fun d hd hq => ?_⟩
  rw [hmain]
  exact sqrtSpeedFactorSq _ d hd hq

/-- Witness for `checkLaneSafety_blocking`: a vehicle exactly 10 m ahead,
centered in the target lane, yields safe = false with pending state, the
squared factor 1/9, and — via the theorem's sqrt conjunct at d = 10 — the
speed factor 1/3. -/
theorem checkLaneSafety_blocking_witness :
    checkLaneSafety 1 0 ⟨some [⟨some []⟩, ⟨some [⟨0, 0⟩, ⟨0, 30⟩]⟩]⟩
      [⟨⟨0, 10⟩⟩] (0, 0) (0, 1) ⟨false, none, false⟩
      = (⟨true, some 1, true⟩, false, 1 / 9) ∧
    Real.sqrt (((checkLaneSafety 1 0 ⟨some [⟨some []⟩, ⟨some [⟨0, 0⟩, ⟨0, 30⟩]⟩]⟩
      [⟨⟨0, 10⟩⟩] (0, 0) (0, 1) ⟨false, none, false⟩).2.2 : ℚ) : ℝ) = 1 / 3 := by
  have h := checkLaneSafety_blocking 1 0
    ⟨some [⟨some []⟩, ⟨some [⟨0, 0⟩, ⟨0, 30⟩]⟩]⟩
    [⟨⟨0, 10⟩⟩] (0, 0) (0, 1) ⟨false, none, false⟩
    [⟨some []⟩, ⟨some [⟨0, 0⟩, ⟨0, 30⟩]⟩] ⟨some [⟨0, 0⟩, ⟨0, 30⟩]⟩
    [⟨0, 0⟩, ⟨0, 30⟩]
    (by norm_num) rfl (by norm_num) rfl
    ⟨⟨⟨0, 10⟩⟩, by simp, by norm_num [Position.isZero],
      by norm_num [isVehicleInLane, minDistSqToLane, distSqPointToLineSegment,
        distSq, isInFront, minQ, maxQ, listMinQ],
      Or.inl ⟨by norm_num [isInFront], by norm_num [distSq]⟩⟩
  have hval : listMinQ (blockingSqDists [⟨⟨0, 10⟩⟩] [⟨0, 0⟩, ⟨0, 30⟩] (0, 0) (0, 1))
      = 100 := by
    norm_num [blockingSqDists, isVehicleInLane, minDistSqToLane,
      distSqPointToLineSegment, distSq, isInFront, minQ, maxQ, listMinQ,
      Position.isZero, List.filterMap]
  constructor
  · rw [h.1, hval]
    norm_num [minQ, maxQ]
  · have h2 := h.2 10 (by norm_num) (by rw [hval]; norm_num)
    rw [h2, show ((10 : ℝ) / 30) = 1 / 3 by norm_num,
      max_eq_right (by norm_num : (3 : ℝ) / 10 ≤ 1 / 3),
      min_eq_right (by norm_num : (1 : ℝ) / 3 ≤ 1)]

theorem hasOutputCurve_cons (nav outL : List ℕ) (c : ℕ) (rest : List ℕ) :
    HasOutputCurve nav outL (c :: rest) ↔
      (c ∈ nav ∧ nav.indexOf c ∈ outL) ∨ HasOutputCurve nav outL rest := by
  simp [HasOutputCurve, List.mem_cons, or_and_right, exists_or]

theorem routeConnectsSpec_nil (nav inL outL : List ℕ) :
    ¬ RouteConnectsSpec nav inL outL [] := by
  rintro ⟨before, s, after, h, -⟩
  cases before <;> simp_all

theorem routeConnectsSpec_cons (nav inL outL : List ℕ) (c : ℕ) (rest : List ℕ) :
    RouteConnectsSpec nav inL outL (c :: rest) ↔
      ((c ∈ nav ∧ nav.indexOf c ∈ inL) ∧
        ((c ∈ nav ∧ nav.indexOf c ∈ outL) ∨ HasOutputCurve nav outL rest)) ∨
      RouteConnectsSpec nav inL outL rest := by
  constructor
  · rintro ⟨before, s, after, heq, hmem, hidx, hout⟩
    cases before with
    | nil =>
      injection heq with hc hrest
      subst hc
      subst hrest
      exact Or.inl ⟨⟨hmem, hidx⟩, (hasOutputCurve_cons nav outL c rest).mp hout⟩
    | cons b before' =>
      injection heq with hc hrest
      subst hc
      exact Or.inr ⟨before', s, after, hrest, hmem, hidx, hout⟩
  · rintro (⟨⟨hm, hi⟩, hout⟩ | ⟨before, s, after, heq, hmem, hidx, hout⟩)
    · exact ⟨[], c, rest, rfl, hm, hi, (hasOutputCurve_cons nav outL c rest).mpr hout⟩
    · exact ⟨c :: before, s, after, by rw [heq, List.cons_append], hmem, hidx, hout⟩

/-- The imperative two-flag scan of a route's curve chain accepts exactly
when (the flag was already set and some remaining curve is an output
curve, or) the declarative route-connection condition holds. -/
theorem scanCurves_iff (nav inL outL : List ℕ) (curves : List ℕ) (b : Bool) :
    scanCurves nav inL outL curves b = true ↔
      ((b = true ∧ HasOutputCurve nav outL curves) ∨
        RouteConnectsSpec nav inL outL curves) := by
  induction curves generalizing b with
  | nil =>
    simp [scanCurves, HasOutputCurve, routeConnectsSpec_nil]
  | cons c rest ih =>
    rw [routeConnectsSpec_cons, hasOutputCurve_cons]
    simp only [scanCurves]
    by_cases hcm : c ∈ nav
    · simp only [if_pos hcm]
      by_cases hin : nav.indexOf c ∈ inL <;> by_cases hout : nav.indexOf c ∈ outL <;>
        cases b <;>
        simp_all [ih]
    · simp only [if_neg hcm]
      rw [ih]
      simp [hcm]

theorem mem_acceptedRoutesAux (nav inL outL : List ℕ) (routes : List NavRoute)
    (k i : ℕ) :
    i ∈ acceptedRoutesAux nav inL outL k routes ↔
      ∃ j route, routes[j]? = some route ∧ i = k + j ∧
        scanCurves nav inL outL route.curves false = true := by
  induction routes generalizing k with
  | nil => simp [acceptedRoutesAux]
  | cons r rs ih =>
    rw [acceptedRoutesAux]
    by_cases hs : scanCurves nav inL outL r.curves false = true
    · rw [if_pos hs]
      simp only [List.mem_cons, ih]
      constructor
      · rintro (rfl | ⟨j, route, hj, rfl, hsc⟩)
        · exact ⟨0, r, by simp, by omega, hs⟩
        · exact ⟨j + 1, route, by simpa using hj, by omega, hsc⟩
      · rintro ⟨j, route, hj, rfl, hsc⟩
        cases j with
        | zero =>
          left
          simp at hj
          omega
        | succ j' =>
          right
          exact ⟨j', route, by simpa using hj, by omega, hsc⟩
    · rw [if_neg hs]
      rw [ih]
      constructor
      · rintro ⟨j, route, hj, rfl, hsc⟩
        exact ⟨j + 1, route, by simpa using hj, by omega, hsc⟩
      · rintro ⟨j, route, hj, rfl, hsc⟩
        cases j with
        | zero =>
          simp at hj
          subst hj
          exact absurd hsc hs
        | succ j' =>
          exact ⟨j', route, by simpa using hj, by omega, hsc⟩

/-- C5: for a prefab with a resolved description, node_1 and node_2 found at
distinct positions in the rotated boundary order, and their descriptors
resolved, the connecting-lanes query returns exactly the indices of the
navigation routes whose curve chain satisfies the declarative condition:
walked in order, it contains a curve indexed in the start descriptor's
input-lane set and, at or after that point, a curve indexed in the end
descriptor's output-lane set.  Routes missing either condition are excluded,
and the result may be empty. -/
theorem getConnectingLanesByItem_prefab (node1 node2 : Node) (p : Prefab)
    (mapData : MapData) (description : PrefabDescription)
    (node1Index node2Index : ℕ) (startPrefabNode endPrefabNode : PrefabNode)
    (hdesc : p.prefabDescription = some description)
    (h1 : (rotateRight (p.nodeUids.map mapData.getNodeByUid)
        p.originNodeIndex).findIdx? (nodeUidMatches node1.uid) = some node1Index)
    (h2 : description.nodes[node1Index]? = some startPrefabNode)
    (h3 : (rotateRight (p.nodeUids.map mapData.getNodeByUid)
        p.originNodeIndex).findIdx? (nodeUidMatches node2.uid) = some node2Index)
    (h4 : description.nodes[node2Index]? = some endPrefabNode)
    (h5 : node1Index ≠ node2Index) :
    ∀ i, i ∈ getConnectingLanesByItem node1 node2 (Item.prefab p) mapData ↔
      ∃ route, description.navRoutes[i]? = some route ∧
        RouteConnectsSpec description.navCurves startPrefabNode.inputLanes
          endPrefabNode.outputLanes route.curves := by
  intro i
  simp only [getConnectingLanesByItem, hdesc, h1, h2, h3, h4, if_neg h5]
  by_cases hempty : description.navRoutes.isEmpty
  · rw [if_pos hempty]
    have hnil : description.navRoutes = [] := by simpa using hempty
    simp [hnil]
  · rw [if_neg hempty, mem_acceptedRoutesAux]
    constructor
    · rintro ⟨j, route, hj, rfl, hsc⟩
      refine ⟨route, by simpa using hj, ?_⟩
      have := (scanCurves_iff description.navCurves startPrefabNode.inputLanes
        endPrefabNode.outputLanes route.curves false).mp hsc
      exact this.resolve_left (by simp)
    · rintro ⟨route, hi, hconn⟩
      exact ⟨i, route, hi, by omega,
        (scanCurves_iff description.navCurves startPrefabNode.inputLanes
          endPrefabNode.outputLanes route.curves false).mpr (Or.inr hconn)⟩

/-- Witness for `getConnectingLanesByItem_prefab`: a prefab with two
boundary nodes, nav curves [5, 6], a route [5, 6] that starts in the start
node's input lanes {0} and then reaches the end node's output lanes {1}
(accepted as index 0), and a route [6] that misses the start condition
(excluded). -/
theorem getConnectingLanesByItem_prefab_witness :
    (0 ∈ getConnectingLanesByItem ⟨100, 0, 0, none, none⟩ ⟨200, 0, 0, none, none⟩
        (Item.prefab ⟨9, [100, 200], 0,
          some ⟨[⟨[0], []⟩, ⟨[], [1]⟩], [5, 6], [⟨[5, 6]⟩, ⟨[6]⟩]⟩⟩)
        ⟨fun u => if u = 100 then some ⟨100, 0, 0, none, none⟩
          else if u = 200 then some ⟨200, 0, 0, none, none⟩ else none⟩ ↔
      ∃ route, ([⟨[5, 6]⟩, ⟨[6]⟩] : List NavRoute)[0]? = some route ∧
        RouteConnectsSpec [5, 6] [0] [1] route.curves) ∧
    0 ∈ getConnectingLanesByItem ⟨100, 0, 0, none, none⟩ ⟨200, 0, 0, none, none⟩
        (Item.prefab ⟨9, [100, 200], 0,
          some ⟨[⟨[0], []⟩, ⟨[], [1]⟩], [5, 6], [⟨[5, 6]⟩, ⟨[6]⟩]⟩⟩)
        ⟨fun u => if u = 100 then some ⟨100, 0, 0, none, none⟩
          else if u = 200 then some ⟨200, 0, 0, none, none⟩ else none⟩ ∧
    1 ∉ getConnectingLanesByItem ⟨100, 0, 0, none, none⟩ ⟨200, 0, 0, none, none⟩
        (Item.prefab ⟨9, [100, 200], 0,
          some ⟨[⟨[0], []⟩, ⟨[], [1]⟩], [5, 6], [⟨[5, 6]⟩, ⟨[6]⟩]⟩⟩)
        ⟨fun u => if u = 100 then some ⟨100, 0, 0, none, none⟩
          else if u = 200 then some ⟨200, 0, 0, none, none⟩ else none⟩ :=
  ⟨getConnectingLanesByItem_prefab ⟨100, 0, 0, none, none⟩ ⟨200, 0, 0, none, none⟩
      ⟨9, [100, 200], 0, some ⟨[⟨[0], []⟩, ⟨[], [1]⟩], [5, 6], [⟨[5, 6]⟩, ⟨[6]⟩]⟩⟩
      ⟨fun u => if u = 100 then some ⟨100, 0, 0, none, none⟩
        else if u = 200 then some ⟨200, 0, 0, none, none⟩ else none⟩
      ⟨[⟨[0], []⟩, ⟨[], [1]⟩], [5, 6], [⟨[5, 6]⟩, ⟨[6]⟩]⟩ 0 1 ⟨[0], []⟩ ⟨[], [1]⟩
      rfl (by decide) (by decide) (by decide) (by decide) (by decide) 0,
   by decide, by decide⟩

theorem mem_insertByDistSq (pos : ℚ × ℚ) (m n : Node) (l : List Node) :
    n ∈ insertByDistSq pos m l ↔ n = m ∨ n ∈ l := by
  induction l with
  | nil => simp [insertByDistSq]
  | cons a l ih =>
    rw [insertByDistSq]
    by_cases h : distSq (a.x, a.y) pos < distSq (m.x, m.y) pos
    · rw [if_pos h]
      simp only [List.mem_cons, ih]
      tauto
    · rw [if_neg h]
      simp only [List.mem_cons]

theorem mem_sortByDistSq (pos : ℚ × ℚ) (n : Node) (l : List Node) :
    n ∈ sortByDistSq pos l ↔ n ∈ l := by
  induction l with
  | nil => simp [sortByDistSq]
  | cons a l ih =>
    rw [sortByDistSq, mem_insertByDistSq]
    simp [ih]

theorem windowListEq (path : List Node) (inF : Bool) (index : ℕ)
    (hidx : index < path.length) :
    (path.drop (if inF then index - 1 else index)).take
      ((if inF then
          if (if inF then index - 1 else index) = 0 then index + 2 else index + 1
        else min path.length (index + 2)) - (if inF then index - 1 else index))
    = (path.drop (amendedWindowBounds inF index path.length).1).take
        ((amendedWindowBounds inF index path.length).2
          - (amendedWindowBounds inF index path.length).1) := by
  cases inF with
  | false => rfl
  | true =>
    show (path.drop (index - 1)).take
        ((if index - 1 = 0 then index + 2 else index + 1) - (index - 1))
      = (path.drop (amendedWindowBounds true index path.length).1).take
          ((amendedWindowBounds true index path.length).2
            - (amendedWindowBounds true index path.length).1)
    by_cases hle : index ≤ 1
    · have h0 : index - 1 = 0 := by omega
      rw [h0, if_pos rfl]
      have hb : amendedWindowBounds true index path.length
          = (0, min path.length (index + 2)) := by
        simp [amendedWindowBounds, hle]
      rw [hb]
      simp only [List.drop_zero, Nat.sub_zero]
      by_cases hlen : index + 2 ≤ path.length
      · rw [min_eq_right hlen]
      · rw [min_eq_left (by omega), List.take_length,
          List.take_of_length_le (by omega)]
    · have h0 : index - 1 ≠ 0 := by omega
      rw [if_neg h0]
      have hb : amendedWindowBounds true index path.length
          = (index - 1, min path.length (index + 1)) := by
        simp [amendedWindowBounds, hle]
      rw [hb, min_eq_right (by omega)]

/-- C8 (amended): the path-window locator agrees, on every input, with the
claimed description once the window rule is amended so that the
`[0, index+2)` branch is taken whenever ahead and index ≤ 1 (the source's
`lower_bound == 0` test fires at index 1 as well, not only at index 0);
the behind rule `[index, index+2)` and the remaining ahead rule
`[index-1, index+1)` are as claimed, windows are clipped to path bounds,
the first behind node in the window is `last`, the first ahead node is
`next`, and `(none, none)` is returned when either class is missing — in
particular on every 1-node path; a straight 5-node path with the truck
exactly between nodes 2 and 3 facing forward yields (node 2, node 3). -/
theorem getSurroundingNavNodes_spec :
    (∀ (routeNodes : List RouteNode) (x z : ℚ) (fwd : ℚ × ℚ),
      getSurroundingNavNodes routeNodes x z fwd
        = surroundingNodesAmended routeNodes x z fwd) ∧
    (∀ (n : Node) (x z : ℚ) (fwd : ℚ × ℚ),
      getSurroundingNavNodes [⟨n⟩] x z fwd = (none, none)) ∧
    getSurroundingNavNodes
      [⟨⟨0, 0, 0, none, none⟩⟩, ⟨⟨1, 0, 10, none, none⟩⟩, ⟨⟨2, 0, 20, none, none⟩⟩,
       ⟨⟨3, 0, 30, none, none⟩⟩, ⟨⟨4, 0, 40, none, none⟩⟩] 0 25 (0, 1)
      = (some ⟨2, 0, 20, none, none⟩, some ⟨3, 0, 30, none, none⟩) := by
  refine ⟨fun routeNodes x z fwd => ?_, fun n x z fwd => ?_, ?_⟩
  · unfold getSurroundingNavNodes surroundingNodesAmended surroundingNodesWith
    dsimp only
    cases hs : sortByDistSq (x, z) (routeNodes.map (fun r => r.node)) with
    | nil => rfl
    | cons closest rest =>
      have hmem : closest ∈ routeNodes.map (fun r => r.node) := by
        have hself : closest ∈ closest :: rest := List.mem_cons_self closest rest
        rw [← hs, mem_sortByDistSq] at hself
        exact hself
      have hidx : (routeNodes.map (fun r => r.node)).findIdx (fun n => n == closest)
          < (routeNodes.map (fun r => r.node)).length :=
        List.findIdx_lt_length_of_exists ⟨closest, hmem, by simp⟩
      have hw := windowListEq (routeNodes.map (fun r => r.node))
        (isInFront (closest.x, closest.y) fwd (x, z))
        ((routeNodes.map (fun r => r.node)).findIdx (fun n => n == closest)) hidx
      dsimp only
      rw [hw]
  · cases hif : isInFront (n.x, n.y) fwd (x, z) <;>
      simp [getSurroundingNavNodes, sortByDistSq, insertByDistSq, hif,
        List.findIdx_cons, List.find?]
  · norm_num [getSurroundingNavNodes, sortByDistSq, insertByDistSq, distSq,
      isInFront, List.findIdx_cons, List.find?, Node.mk.injEq, beq_iff_eq]

/-- C8 (counterexample): on a 3-node path whose closest node has index 1
and lies ahead, the source takes the window [0, index+2) = [0, 3) (its
`lower_bound == 0` test fires at index 1 because max(0, 1-1) = 0) and
returns (some node2, some node0), while the claimed rule — `[0, index+2)`
only at index 0, `[index-1, index+1)` in every other ahead case — yields
the window [0, 2), which contains no behind node, hence (none, none). -/
theorem surroundingNodes_window_counterexample :
    getSurroundingNavNodes
      [⟨⟨0, 0, 4, none, none⟩⟩, ⟨⟨1, 0, 2, none, none⟩⟩, ⟨⟨2, 0, -3, none, none⟩⟩]
      0 0 (0, 1)
      = (some ⟨2, 0, -3, none, none⟩, some ⟨0, 0, 4, none, none⟩) ∧
    surroundingNodesClaimed
      [⟨⟨0, 0, 4, none, none⟩⟩, ⟨⟨1, 0, 2, none, none⟩⟩, ⟨⟨2, 0, -3, none, none⟩⟩]
      0 0 (0, 1)
      = (none, none) := by
  constructor <;>
    norm_num [getSurroundingNavNodes, surroundingNodesClaimed,
      surroundingNodesWith, claimWindowBounds, sortByDistSq, insertByDistSq,
      distSq, isInFront, List.findIdx_cons, List.find?, Node.mk.injEq,
      beq_iff_eq]
